import Mathlib

/-!
Shallow embedding of `src/app/components/story-upload-modal.tsx`, the single
source file of the Treatwellstory repository: a story-upload widget whose
Upload Records are moderated by a remote vision model and rendered in one of
four states.  Pure rendering and parsing logic is embedded as Lean functions;
the stateful React component is embedded as an explicit event/step system on
the `uploadedMedia` list.  Opaque platform handles (object URLs, record ids)
are modelled as natural-number tokens; JavaScript numbers are modelled as ℚ.
-/

namespace StoryUpload

/-- Media kind of an Upload Record (`type: 'image' | 'video'`). -/
inductive MediaKind
  | image
  | video
deriving DecidableEq, Repr

/-- Lifecycle status of an Upload Record
(`status: 'analyzing' | 'approved' | 'rejected' | 'error'`). -/
inductive Status
  | analyzing
  | approved
  | rejected
  | error
deriving DecidableEq, Repr

/-- The six moderation flags (`flaggedCategories` object of `aiAnalysis`). -/
structure FlaggedCategories where
  nudity : Bool
  profanity : Bool
  violence : Bool
  illegalItems : Bool
  contactInfo : Bool
  offTopicContent : Bool
deriving DecidableEq, Repr

/-- Keys of `FLAG_LABELS` / `flaggedCategories`, in source (insertion) order. -/
inductive FlagKey
  | nudity
  | profanity
  | violence
  | illegalItems
  | contactInfo
  | offTopicContent
deriving DecidableEq, Repr

/-- Field lookup `flags[key]` on the `flaggedCategories` object. -/
def FlaggedCategories.get (f : FlaggedCategories) : FlagKey → Bool
  | .nudity => f.nudity
  | .profanity => f.profanity
  | .violence => f.violence
  | .illegalItems => f.illegalItems
  | .contactInfo => f.contactInfo
  | .offTopicContent => f.offTopicContent

/-- The `FLAG_LABELS` record; `Object.entries` enumerates it in insertion
order, so it is embedded directly as an association list. -/
def FLAG_LABELS : List (FlagKey × String) :=
  [ (.nudity, "Nudity / Sexual content")
  , (.profanity, "Profanity / Offensive text")
  , (.violence, "Violence / Gore")
  , (.illegalItems, "Drugs / Weapons / Illegal items")
  , (.contactInfo, "Contact information")
  , (.offTopicContent, "Off-topic content") ]

/-- The stored analysis result (`aiAnalysis` field of `UploadedMedia`).
`moderationStatus` is kept as the raw runtime value (`Option String`): the
source applies no default to it, so it may be absent even though the
TypeScript annotation promises `'safe' | 'unsafe'`. -/
structure AiAnalysis where
  contentType : List String
  tags : List String
  moderationStatus : Option String
  moderationReasons : List String
  confidence : ℚ
  flaggedCategories : FlaggedCategories
deriving DecidableEq, Repr

/-- The verdict object produced by `JSON.parse` on the cleaned response text.
Every field the source reads off `parsed` is optional at runtime. -/
structure ParsedVerdict where
  moderationStatus : Option String
  moderationReasons : Option (List String)
  contentType : Option String
  tags : Option (List String)
  confidence : Option ℚ
  flaggedCategories : Option FlaggedCategories
deriving DecidableEq, Repr

/-- The all-false `flaggedCategories` default object from the source's
`??` fallback. -/
def defaultFlags : FlaggedCategories :=
  { nudity := false, profanity := false, violence := false
  , illegalItems := false, contactInfo := false, offTopicContent := false }

/-- The value returned by `analyzeMediaWithClaude` from a parsed verdict:
the final `return { contentType: [parsed.contentType ?? 'Unknown'], ... }`
object, with each `??` default applied. -/
def buildAnalysis (p : ParsedVerdict) : AiAnalysis :=
  { contentType := [p.contentType.getD "Unknown"]
  , tags := p.tags.getD []
  , moderationStatus := p.moderationStatus
  , moderationReasons := p.moderationReasons.getD []
  , confidence := p.confidence.getD (9/10)
  , flaggedCategories := p.flaggedCategories.getD defaultFlags }

/-- The status assigned when the moderation call resolves:
`analysis.moderationStatus === 'safe' ? 'approved' : 'rejected'`. -/
def resolvedStatus (a : AiAnalysis) : Status :=
  if a.moderationStatus = some "safe" then .approved else .rejected

/-- The category rows of the REJECTED panel: `Object.entries(FLAG_LABELS)`
filtered to the triggered flags, each row showing its label and the
`Flagged` badge text. -/
def rejectedFlagRows (f : FlaggedCategories) : List (String × String) :=
  (FLAG_LABELS.filter (fun e => f.get e.1)).map (fun e => (e.2, "Flagged"))

/-- The category rows of the APPROVED panel's Moderation Checks section:
all six entries, each badged `Flagged` or `Clear`. -/
def approvedFlagRows (f : FlaggedCategories) : List (String × String) :=
  FLAG_LABELS.map (fun e => (e.2, if f.get e.1 then "Flagged" else "Clear"))

/-- Number of triggered flags (the length of `triggeredFlags` in the source). -/
def trueFlagCount (f : FlaggedCategories) : Nat :=
  (FLAG_LABELS.filter (fun e => f.get e.1)).length

/-- A `flaggedCategories` value with exactly two flags set
(nudity and profanity), as in the spec's two-flag scenario. -/
def twoFlagExample : FlaggedCategories :=
  { nudity := true, profanity := true, violence := false
  , illegalItems := false, contactInfo := false, offTopicContent := false }

/-- The two environment values `analyzeMediaWithClaude` reads:
`VITE_ANTHROPIC_API_KEY` (may be absent) and `VITE_ANTHROPIC_MODEL`
(may be absent, falls back to a hard-coded default). -/
structure Env where
  apiKey : Option String
  modelEnv : Option String
deriving DecidableEq, Repr

/-- The configured model identifier:
`import.meta.env.VITE_ANTHROPIC_MODEL ?? 'claude-sonnet-4-20250514'`. -/
def modelOf (e : Env) : String :=
  e.modelEnv.getD "claude-sonnet-4-20250514"

/-- Message of the error thrown when the API credential is absent. -/
def configErrorMsg : String :=
  "Missing VITE_ANTHROPIC_API_KEY. Add it to your .env and restart the dev server."

/-- Message of the error thrown on a non-ok HTTP response (`!response.ok`):
the special-cased 404 message names the configured model, all messages carry
the numeric status and the raw body text. -/
def errorMessage (status : Nat) (body : String) (model : String) : String :=
  if status = 404 then
    "Moderation API error (404): model \"" ++ model ++
      "\" not found for this API key. " ++
      "Double-check VITE_ANTHROPIC_MODEL against the /v1/models list. Raw: " ++ body
  else
    "Moderation API error (" ++ toString status ++ "): " ++ body

/-- The observable stages of the moderation pipeline, used to record which
work `analyzeMediaWithClaude` performs before throwing. -/
inductive PipeStep
  | frameExtract
  | base64Encode
  | networkCall
deriving DecidableEq, Repr

/-- The environment's answer to the single `fetch`: the HTTP outcome plus, on
a 2xx response, the outcome of `JSON.parse` on the concatenated and
code-fence-stripped content text (`fetch` and `JSON.parse` are opaque
platform functions, so their results are inputs of the model). -/
structure HttpResponse where
  ok : Bool
  status : Nat
  bodyText : String
  parseResult : Except String ParsedVerdict
deriving Repr

/-- `analyzeMediaWithClaude`, as the pair of (pipeline steps performed,
result).  Faithful to the source's order: the media is frame-extracted
(video) or base64-encoded (image) FIRST, the credential check comes after,
and only then is the network request issued. -/
def analyzeMediaWithClaude (env : Env) (isVideo : Bool) (resp : HttpResponse) :
    List PipeStep × Except String AiAnalysis :=
  let encodeStep := if isVideo then PipeStep.frameExtract else PipeStep.base64Encode
  match env.apiKey with
  | none => ([encodeStep], .error configErrorMsg)
  | some _ =>
    let steps := [encodeStep, PipeStep.networkCall]
    if resp.ok then
      match resp.parseResult with
      | .error e => (steps, .error e)
      | .ok p => (steps, .ok (buildAnalysis p))
    else
      (steps, .error (errorMessage resp.status resp.bodyText (modelOf env)))

-- ── Component state machine ──────────────────────────────────────────────────

/-- One element of the `uploadedMedia` state array.  `id` and `url` are the
opaque record identifier and preview-URL handle, modelled as tokens. -/
structure MediaRec where
  id : Nat
  url : Nat
  kind : MediaKind
  status : Status
  aiAnalysis : Option AiAnalysis
  error : Option String
deriving DecidableEq, Repr

/-- The component state the claims range over: the `uploadedMedia` array. -/
structure ModalState where
  media : List MediaRec
deriving DecidableEq, Repr

/-- Initial state: `useState<UploadedMedia[]>([])`. -/
def initialState : ModalState := ⟨[]⟩

/-- `String.prototype.startsWith`, embedded as the character-level prefix
test (equivalent to the byte-level test on UTF-8 strings). -/
def strStartsWith (s pre : String) : Bool :=
  pre.data.isPrefixOf s.data

/-- The MIME-type gate of `handleFileSelect`:
`file.type.startsWith('image/') || file.type.startsWith('video/')`. -/
def acceptedFileType (t : String) : Bool :=
  strStartsWith t "image/" || strStartsWith t "video/"

/-- The fresh Upload Record built by `handleFileSelect` for an accepted file
(`newMedia`), with the caller-supplied fresh id and preview URL. -/
def mkRecord (id url : Nat) (fileType : String) : MediaRec :=
  { id := id, url := url
  , kind := if strStartsWith fileType "image/" then .image else .video
  , status := .analyzing, aiAnalysis := none, error := none }

/-- State effect of `handleFileSelect` up to its `setUploadedMedia([newMedia])`:
a non-media file is a no-op, an accepted file replaces the whole array with
the one fresh analyzing record. -/
def handleFileSelectState (s : ModalState) (fileType : String) (id url : Nat) :
    ModalState :=
  if acceptedFileType fileType then ⟨[mkRecord id url fileType]⟩ else s

/-- Preview URLs revoked by `handleFileSelect`:
`uploadedMedia.forEach(media => URL.revokeObjectURL(media.url))`, run only
after the MIME gate. -/
def handleFileSelectRevokes (s : ModalState) (fileType : String) : List Nat :=
  if acceptedFileType fileType then s.media.map (fun m => m.url) else []

/-- Preview URLs allocated by `handleFileSelect` (`URL.createObjectURL`). -/
def handleFileSelectAllocs (fileType : String) (url : Nat) : List Nat :=
  if acceptedFileType fileType then [url] else []

/-- State effect of `removeMedia`: `prev.filter(m => m.id !== id)`. -/
def removeMedia (s : ModalState) (id : Nat) : ModalState :=
  ⟨s.media.filter (fun m => m.id != id)⟩

/-- Preview URLs revoked by `removeMedia`: the found record's url, if any. -/
def removeMediaRevokes (s : ModalState) (id : Nat) : List Nat :=
  match s.media.find? (fun m => m.id == id) with
  | some m => [m.url]
  | none => []

/-- The success continuation of the moderation call: map over the current
array, rewriting only the record whose id still matches
(`m.id !== newMedia.id ? m : { ...m, status: ..., aiAnalysis: analysis }`). -/
def resolveSuccess (s : ModalState) (id : Nat) (a : AiAnalysis) : ModalState :=
  ⟨s.media.map (fun m =>
    if m.id != id then m
    else { m with status := resolvedStatus a, aiAnalysis := some a })⟩

/-- The catch continuation of the moderation call: map over the current
array, rewriting only the still-matching record to status `error`. -/
def resolveFailure (s : ModalState) (id : Nat) (msg : String) : ModalState :=
  ⟨s.media.map (fun m =>
    if m.id != id then m
    else { m with status := .error, error := some msg })⟩

/-- State effect of `handleSuccessClose`: `setUploadedMedia([])`.  Note the
source revokes NO preview URL on this path. -/
def handleSuccessClose (_ : ModalState) : ModalState := ⟨[]⟩

/-- The user/async events that mutate `uploadedMedia`. -/
inductive Event
  | select (fileType : String) (id url : Nat)
  | remove (id : Nat)
  | resolved (id : Nat) (a : AiAnalysis)
  | failed (id : Nat) (msg : String)
  | closeSuccess
deriving Repr

/-- One event's effect on the state. -/
def stepState (s : ModalState) : Event → ModalState
  | .select ft id url => handleFileSelectState s ft id url
  | .remove id => removeMedia s id
  | .resolved id a => resolveSuccess s id a
  | .failed id msg => resolveFailure s id msg
  | .closeSuccess => handleSuccessClose s

/-- Preview URLs allocated by one event. -/
def stepAllocs : Event → List Nat
  | .select ft _ url => handleFileSelectAllocs ft url
  | _ => []

/-- Preview URLs revoked by one event, from state `s`. -/
def stepRevokes (s : ModalState) : Event → List Nat
  | .select ft _ _ => handleFileSelectRevokes s ft
  | .remove id => removeMediaRevokes s id
  | _ => []

/-- Run a trace of events from a state, accumulating (final state,
allocated URLs, revoked URLs). -/
def runAux : ModalState → List Event → ModalState × List Nat × List Nat
  | s, [] => (s, [], [])
  | s, e :: es =>
    let t := runAux (stepState s e) es
    (t.1, stepAllocs e ++ t.2.1, stepRevokes s e ++ t.2.2)

/-- Run a trace from the initial empty state. -/
def run (es : List Event) : ModalState × List Nat × List Nat :=
  runAux initialState es

/-- The component states reachable from the initial state by some trace. -/
def Reachable (s : ModalState) : Prop :=
  ∃ es, (run es).1 = s

/-- `uploadedMedia.filter(m => m.status === 'approved').length`. -/
def approvedCount (l : List MediaRec) : Nat :=
  (l.filter (fun m => m.status == .approved)).length

/-- `uploadedMedia.filter(m => m.status === 'analyzing').length`. -/
def analyzingCount (l : List MediaRec) : Nat :=
  (l.filter (fun m => m.status == .analyzing)).length

/-- The Publish button's `disabled` prop:
`approvedCount === 0 || analyzingCount > 0`. -/
def publishDisabled (l : List MediaRec) : Bool :=
  approvedCount l == 0 || decide (0 < analyzingCount l)

/-- The approved panel's confidence figure:
`Math.round(media.aiAnalysis.confidence * 100)`.  `Math.round` rounds half
toward positive infinity, as does Mathlib's `round`. -/
def confidencePct (c : ℚ) : ℤ :=
  round (c * 100)

/-- The rendered confidence text `{confidencePct}%`. -/
def confidenceDisplay (c : ℚ) : String :=
  toString (confidencePct c) ++ "%"

/-- A concrete safe analysis result, with all optional verdict fields
defaulted. -/
def exampleAnalysis : AiAnalysis :=
  { contentType := ["Hair Colouring"], tags := []
  , moderationStatus := some "safe", moderationReasons := []
  , confidence := 9/10, flaggedCategories := defaultFlags }

/-- A verdict with every optional field absent. -/
def emptyVerdict : ParsedVerdict :=
  { moderationStatus := none, moderationReasons := none, contentType := none
  , tags := none, confidence := none, flaggedCategories := none }

/-- A successful HTTP response whose body parses to a minimal safe verdict. -/
def okResponse : HttpResponse :=
  { ok := true, status := 200, bodyText := ""
  , parseResult := .ok { emptyVerdict with moderationStatus := some "safe" } }

/-- A concrete analyzing Upload Record. -/
def recA : MediaRec :=
  { id := 1, url := 10, kind := .image, status := .analyzing
  , aiAnalysis := none, error := none }

/-- The publish-success scenario: select an image, the moderation call
resolves approved, the user closes the success dialog. -/
def leakTrace : List Event :=
  [ .select "image/png" 1 10, .resolved 1 exampleAnalysis, .closeSuccess ]

/-- `needle` occurs as a contiguous substring of `hay`. -/
def StrContains (hay needle : String) : Prop :=
  ∃ p q, hay = p ++ (needle ++ q)

-- ── General-purpose helper lemmas ────────────────────────────────────────────

theorem str_append_assoc (a b c : String) : a ++ b ++ c = a ++ (b ++ c) := by
  rcases a with ⟨la⟩; rcases b with ⟨lb⟩; rcases c with ⟨lc⟩
  show String.mk (la ++ lb ++ lc) = String.mk (la ++ (lb ++ lc))
  rw [List.append_assoc]

theorem str_append_empty (a : String) : a ++ "" = a := by
  rcases a with ⟨la⟩
  show String.mk (la ++ []) = String.mk la
  rw [List.append_nil]

/-- Mapping an id-guarded rewrite over a list touching no element is the
identity. -/
theorem map_untouched_id (f : MediaRec → MediaRec) (id : Nat) :
    ∀ (l : List MediaRec), (∀ m ∈ l, m.id ≠ id) →
      (l.map (fun m => if m.id != id then m else f m)) = l := by
  intro l
  induction l with
  | nil => intro _; rfl
  | cons a t ih =>
    intro h
    have ha : (a.id != id) = true := by
      simpa [bne_iff_ne] using h a (List.mem_cons_self a t)
    simp only [List.map_cons, ha, if_pos]
    rw [ih (fun m hm => h m (List.mem_cons_of_mem a hm))]

/-- Every element surviving `removeMedia`'s filter has a different id. -/
theorem mem_removeMedia_ne (s : ModalState) (id : Nat) :
    ∀ m ∈ (removeMedia s id).media, m.id ≠ id := by
  intro m hm
  have := (List.mem_filter.mp hm).2
  simpa [bne_iff_ne] using this

theorem str_empty_append (a : String) : "" ++ a = a := by
  rcases a with ⟨la⟩
  show String.mk ([] ++ la) = String.mk la
  rw [List.nil_append]

theorem strContains_refl (s : String) : StrContains s s :=
  ⟨"", "", by rw [str_append_empty, str_empty_append]⟩

theorem strContains_here (a b c : String) : StrContains (a ++ b ++ c) b :=
  ⟨a, c, str_append_assoc a b c⟩

theorem strContains_pair (a b : String) : StrContains (a ++ b) b :=
  ⟨a, "", by rw [str_append_empty]⟩

theorem strContains_append_right {s n : String} (h : StrContains s n)
    (t : String) : StrContains (s ++ t) n := by
  obtain ⟨p, q, rfl⟩ := h
  exact ⟨p, q ++ t, by simp [str_append_assoc]⟩

theorem strContains_append_left {s n : String} (t : String)
    (h : StrContains s n) : StrContains (t ++ s) n := by
  obtain ⟨p, q, rfl⟩ := h
  exact ⟨t ++ p, q, by simp [str_append_assoc]⟩

/-- One transition preserves the at-most-one-record bound. -/
theorem step_length_le_one (s : ModalState) (e : Event)
    (h : s.media.length ≤ 1) : (stepState s e).media.length ≤ 1 := by
  cases e with
  | select ft id url =>
    simp only [stepState, handleFileSelectState]
    split
    · simp
    · exact h
  | remove id =>
    exact le_trans (List.length_filter_le _ _) h
  | resolved id a =>
    simpa [stepState, resolveSuccess] using h
  | failed id msg =>
    simpa [stepState, resolveFailure] using h
  | closeSuccess =>
    simp [stepState, handleSuccessClose]

/-- Any run from a state within the bound stays within the bound. -/
theorem runAux_length_le_one (es : List Event) :
    ∀ s : ModalState, s.media.length ≤ 1 →
      ((runAux s es).1).media.length ≤ 1 := by
  induction es with
  | nil => intro s h; exact h
  | cons e es ih =>
    intro s h
    exact ih (stepState s e) (step_length_le_one s e h)

-- ── Claim theorems ───────────────────────────────────────────────────────────

/-- C1 (counterexample): for a rejected analysis with exactly two flagged
categories (nudity and profanity), the rejected panel's category list does
NOT carry a `Clear` row for any of the other four categories — here
`Violence / Gore` — contradicting the claim that all six categories are
enumerated, the clear ones with a `Clear` marker. -/
theorem rejected_panel_two_flags_no_clear_row :
    trueFlagCount twoFlagExample = 2 ∧
    ("Nudity / Sexual content", "Flagged") ∈ rejectedFlagRows twoFlagExample ∧
    ("Profanity / Offensive text", "Flagged") ∈ rejectedFlagRows twoFlagExample ∧
    ("Violence / Gore", "Clear") ∉ rejectedFlagRows twoFlagExample ∧
    (rejectedFlagRows twoFlagExample).length = 2 := by
  decide

/-- C1 (amended): the rejected panel's category list enumerates exactly the
flagged categories, each with a `Flagged` marker; unflagged categories are
not listed at all (no `Clear` rows), and the number of rows equals the
number of flagged categories. -/
theorem rejected_panel_rows_flagged_only (f : FlaggedCategories) :
    (∀ e ∈ FLAG_LABELS, ((e.2, "Flagged") ∈ rejectedFlagRows f ↔ f.get e.1 = true)) ∧
    (∀ r ∈ rejectedFlagRows f, r.2 = "Flagged") ∧
    (rejectedFlagRows f).length = trueFlagCount f := by
  rcases f with ⟨n, p, v, i, c, o⟩
  cases n <;> cases p <;> cases v <;> cases i <;> cases c <;> cases o <;> decide

/-- C1 (witness): the amended theorem evaluated at the two-flag example. -/
theorem rejected_panel_rows_flagged_only_witness :
    (("Violence / Gore", "Flagged") ∈ rejectedFlagRows twoFlagExample ↔
      twoFlagExample.get .violence = true) ∧
    (rejectedFlagRows twoFlagExample).length = trueFlagCount twoFlagExample :=
  ⟨(rejected_panel_rows_flagged_only twoFlagExample).1
      (FlagKey.violence, "Violence / Gore") (by decide),
   (rejected_panel_rows_flagged_only twoFlagExample).2.2⟩

/-- C4: applying the source's `??` defaults — an omitted `tags` becomes `[]`,
an omitted `moderationReasons` becomes `[]`, an omitted `confidence`
becomes 0.9, an omitted `flaggedCategories` becomes the all-false object,
an omitted `contentType` becomes `Unknown`; every present field is kept,
and `moderationStatus` is passed through with no default. -/
theorem analysis_defaults (p : ParsedVerdict) :
    (p.tags = none → (buildAnalysis p).tags = []) ∧
    (∀ t, p.tags = some t → (buildAnalysis p).tags = t) ∧
    (p.moderationReasons = none → (buildAnalysis p).moderationReasons = []) ∧
    (∀ rs, p.moderationReasons = some rs → (buildAnalysis p).moderationReasons = rs) ∧
    (p.confidence = none → (buildAnalysis p).confidence = 9/10) ∧
    (∀ c, p.confidence = some c → (buildAnalysis p).confidence = c) ∧
    (p.flaggedCategories = none → (buildAnalysis p).flaggedCategories =
      { nudity := false, profanity := false, violence := false
      , illegalItems := false, contactInfo := false, offTopicContent := false }) ∧
    (∀ fc, p.flaggedCategories = some fc → (buildAnalysis p).flaggedCategories = fc) ∧
    (p.contentType = none → (buildAnalysis p).contentType = ["Unknown"]) ∧
    (∀ ct, p.contentType = some ct → (buildAnalysis p).contentType = [ct]) ∧
    (buildAnalysis p).moderationStatus = p.moderationStatus := by
  refine ⟨?_, ?_, ?_, ?_, ?_, ?_, ?_, ?_, ?_, ?_, ?_⟩ <;>
    first
      | (intro h; simp [buildAnalysis, defaultFlags, h])
      | (intro x h; simp [buildAnalysis, h])
      | simp [buildAnalysis]

/-- C4 (witness): the defaults theorem evaluated at the all-absent verdict. -/
theorem analysis_defaults_witness :
    (buildAnalysis emptyVerdict).tags = [] ∧
    (buildAnalysis emptyVerdict).moderationReasons = [] ∧
    (buildAnalysis emptyVerdict).confidence = 9/10 ∧
    (buildAnalysis emptyVerdict).flaggedCategories =
      { nudity := false, profanity := false, violence := false
      , illegalItems := false, contactInfo := false, offTopicContent := false } ∧
    (buildAnalysis emptyVerdict).contentType = ["Unknown"] :=
  ⟨(analysis_defaults emptyVerdict).1 rfl,
   (analysis_defaults emptyVerdict).2.2.1 rfl,
   (analysis_defaults emptyVerdict).2.2.2.2.1 rfl,
   (analysis_defaults emptyVerdict).2.2.2.2.2.2.1 rfl,
   (analysis_defaults emptyVerdict).2.2.2.2.2.2.2.2.1 rfl⟩

/-- C8: a resolved record is approved exactly when the parsed
`moderationStatus` is the string `safe`; every other runtime value of the
field — absent included — resolves to rejected, and the resolution applied
to the matching record in the state rewrites its status accordingly. -/
theorem approved_iff_moderation_safe (p : ParsedVerdict) :
    (resolvedStatus (buildAnalysis p) = Status.approved ↔
      p.moderationStatus = some "safe") ∧
    (resolvedStatus (buildAnalysis p) = Status.approved ∨
      resolvedStatus (buildAnalysis p) = Status.rejected) ∧
    ∀ (r : MediaRec) (a : AiAnalysis),
      (resolveSuccess ⟨[r]⟩ r.id a).media.map (fun m => m.status) =
        [resolvedStatus a] := by
  refine ⟨?_, ?_, ?_⟩
  · by_cases h : p.moderationStatus = some "safe" <;>
      simp [resolvedStatus, buildAnalysis, h]
  · by_cases h : p.moderationStatus = some "safe" <;>
      simp [resolvedStatus, buildAnalysis, h]
  · intro r a
    simp [resolveSuccess]

/-- C2 (code evaluated at the failing trace): in the publish-success
scenario — select an image (preview URL 10 allocated), the moderation call
resolves approved, the success dialog is closed — the preview URL is
allocated once but revoked zero times, because `handleSuccessClose` clears
`uploadedMedia` without calling `URL.revokeObjectURL`. -/
theorem preview_url_leak_on_success_close :
    ((run leakTrace).2.1.count 10 = 1) ∧
    ((run leakTrace).2.2.count 10 = 0) ∧
    (run leakTrace).1 = initialState := by
  decide

/-- C3 (counterexample): with the API credential absent, the pipeline still
performs base64 encoding (frame extraction when the file is a video)
before failing: the step list of `analyzeMediaWithClaude` is not empty as
the claim requires, although the result is the configuration error. -/
theorem encoding_runs_before_credential_check :
    (analyzeMediaWithClaude ⟨none, none⟩ false okResponse).1 =
      [PipeStep.base64Encode] ∧
    (analyzeMediaWithClaude ⟨none, none⟩ false okResponse).1 ≠ [] ∧
    (analyzeMediaWithClaude ⟨none, none⟩ true okResponse).1 =
      [PipeStep.frameExtract] ∧
    (analyzeMediaWithClaude ⟨none, none⟩ false okResponse).2 =
      .error configErrorMsg :=
  ⟨rfl, by decide, rfl, rfl⟩

/-- C3 (amended): when the API credential is absent the pipeline fails with
the configuration error before the network call (though after media
encoding), and the catch handler moves the matching record to status
`error` with that message. -/
theorem config_error_before_network (env : Env) (isVideo : Bool)
    (resp : HttpResponse) (h : env.apiKey = none) :
    (analyzeMediaWithClaude env isVideo resp).2 = .error configErrorMsg ∧
    PipeStep.networkCall ∉ (analyzeMediaWithClaude env isVideo resp).1 ∧
    ∀ (r : MediaRec),
      (resolveFailure ⟨[r]⟩ r.id configErrorMsg).media =
        [{ r with status := Status.error, error := some configErrorMsg }] := by
  refine ⟨?_, ?_, ?_⟩
  · simp [analyzeMediaWithClaude, h]
  · cases isVideo <;> simp [analyzeMediaWithClaude, h]
  · intro r
    simp [resolveFailure]

/-- C3 (witness): the amended theorem at a concrete credential-less
environment. -/
theorem config_error_before_network_witness :
    (analyzeMediaWithClaude ⟨none, none⟩ false okResponse).2 =
      .error configErrorMsg ∧
    PipeStep.networkCall ∉ (analyzeMediaWithClaude ⟨none, none⟩ false okResponse).1 :=
  ⟨(config_error_before_network ⟨none, none⟩ false okResponse rfl).1,
   (config_error_before_network ⟨none, none⟩ false okResponse rfl).2.1⟩

/-- C5: the Publish button is enabled (its `disabled` prop is false) exactly
when some record is approved and no record is still analyzing. -/
theorem publish_enabled_iff (l : List MediaRec) :
    publishDisabled l = false ↔
      ((∃ m ∈ l, m.status = Status.approved) ∧
        ∀ m ∈ l, m.status ≠ Status.analyzing) := by
  simp only [publishDisabled, Bool.or_eq_false_iff, beq_eq_false_iff_ne, ne_eq,
    decide_eq_false_iff_not, not_lt, Nat.le_zero, approvedCount, analyzingCount,
    List.length_eq_zero, List.filter_eq_nil_iff, beq_iff_eq, not_forall, not_not,
    exists_prop]

/-- C6: every reachable state holds at most one Upload Record; selecting an
accepted (image or video) file leaves exactly the one fresh analyzing
record, discarding whatever was there; selecting any other file type
leaves the state unchanged. -/
theorem single_record_invariant :
    (∀ s, Reachable s → s.media.length ≤ 1) ∧
    (∀ (s : ModalState) (ft : String) (id url : Nat),
      acceptedFileType ft = true →
        handleFileSelectState s ft id url = ⟨[mkRecord id url ft]⟩ ∧
        (mkRecord id url ft).status = Status.analyzing) ∧
    (∀ (s : ModalState) (ft : String) (id url : Nat),
      acceptedFileType ft = false →
        handleFileSelectState s ft id url = s) := by
  refine ⟨?_, ?_, ?_⟩
  · rintro s ⟨es, rfl⟩
    exact runAux_length_le_one es initialState (by decide)
  · intro s ft id url h
    exact ⟨by simp [handleFileSelectState, h], rfl⟩
  · intro s ft id url h
    simp [handleFileSelectState, h]

/-- C6 (witness): the invariant at the initial state, and both select
behaviors at concrete file types. -/
theorem single_record_invariant_witness :
    initialState.media.length ≤ 1 ∧
    handleFileSelectState initialState "image/png" 1 10 =
      ⟨[mkRecord 1 10 "image/png"]⟩ ∧
    handleFileSelectState initialState "text/plain" 1 10 = initialState :=
  ⟨single_record_invariant.1 initialState ⟨[], rfl⟩,
   (single_record_invariant.2.1 initialState "image/png" 1 10 (by decide)).1,
   single_record_invariant.2.2 initialState "text/plain" 1 10 (by decide)⟩

/-- C7: a moderation result arriving for an id no longer present — in
particular, after `removeMedia` with that id — changes nothing: the
removed record is not reintroduced and all other records are untouched
(the rewrite is a per-id map and the id matches no element). -/
theorem stale_resolution_discarded :
    (∀ (s : ModalState) (id : Nat) (a : AiAnalysis),
      (∀ m ∈ s.media, m.id ≠ id) → resolveSuccess s id a = s) ∧
    (∀ (s : ModalState) (id : Nat) (msg : String),
      (∀ m ∈ s.media, m.id ≠ id) → resolveFailure s id msg = s) ∧
    (∀ (s : ModalState) (id : Nat) (a : AiAnalysis),
      resolveSuccess (removeMedia s id) id a = removeMedia s id) ∧
    (∀ (s : ModalState) (id : Nat) (msg : String),
      resolveFailure (removeMedia s id) id msg = removeMedia s id) := by
  have hs : ∀ (s : ModalState) (id : Nat) (a : AiAnalysis),
      (∀ m ∈ s.media, m.id ≠ id) → resolveSuccess s id a = s := by
    intro s id a h
    unfold resolveSuccess
    rw [map_untouched_id _ id s.media h]
  have hf : ∀ (s : ModalState) (id : Nat) (msg : String),
      (∀ m ∈ s.media, m.id ≠ id) → resolveFailure s id msg = s := by
    intro s id msg h
    unfold resolveFailure
    rw [map_untouched_id _ id s.media h]
  exact ⟨hs, hf,
    fun s id a => hs _ id a (mem_removeMedia_ne s id),
    fun s id msg => hf _ id msg (mem_removeMedia_ne s id)⟩

/-- C7 (witness): a stale success and a stale failure for id 2 leave the
singleton state holding record id 1 unchanged. -/
theorem stale_resolution_discarded_witness :
    resolveSuccess ⟨[recA]⟩ 2 exampleAnalysis = ⟨[recA]⟩ ∧
    resolveFailure ⟨[recA]⟩ 2 "network down" = ⟨[recA]⟩ :=
  ⟨stale_resolution_discarded.1 ⟨[recA]⟩ 2 exampleAnalysis (by decide),
   stale_resolution_discarded.2.1 ⟨[recA]⟩ 2 "network down" (by decide)⟩

/-- C9: the message of the error thrown on a non-ok HTTP response contains
the numeric status code and the raw response body; on a 404 it also
contains the configured model identifier; and the catch handler moves the
matching record to status `error` carrying exactly that message. -/
theorem http_error_status_message (status : Nat) (body model : String) :
    StrContains (errorMessage status body model) (toString status) ∧
    StrContains (errorMessage status body model) body ∧
    (status = 404 → StrContains (errorMessage status body model) model) ∧
    ∀ (r : MediaRec),
      (resolveFailure ⟨[r]⟩ r.id (errorMessage status body model)).media =
        [{ r with status := Status.error,
                  error := some (errorMessage status body model) }] := by
  have hstate : ∀ (r : MediaRec),
      (resolveFailure ⟨[r]⟩ r.id (errorMessage status body model)).media =
        [{ r with status := Status.error,
                  error := some (errorMessage status body model) }] := by
    intro r
    simp [resolveFailure]
  by_cases h : status = 404
  · subst h
    have ht : toString (404 : Nat) = "404" := by decide
    have hmsg : errorMessage 404 body model =
        "Moderation API error (404): model \"" ++ model ++
          "\" not found for this API key. " ++
          "Double-check VITE_ANTHROPIC_MODEL against the /v1/models list. Raw: " ++
          body := by
      simp [errorMessage]
    refine ⟨?_, ?_, fun _ => ?_, hstate⟩
    · rw [hmsg, ht]
      refine strContains_append_right (strContains_append_right
        (strContains_append_right (strContains_append_right ?_ model) _) _) body
      exact ⟨"Moderation API error (", "): model \"", by decide⟩
    · rw [hmsg]
      exact strContains_pair _ body
    · rw [hmsg]
      refine strContains_append_right (strContains_append_right
        (strContains_append_right ?_ _) _) body
      exact strContains_pair _ model
  · have hmsg : errorMessage status body model =
        "Moderation API error (" ++ toString status ++ "): " ++ body := by
      simp [errorMessage, h]
    refine ⟨?_, ?_, fun h404 => absurd h404 h, hstate⟩
    · rw [hmsg]
      exact strContains_append_right
        (strContains_here "Moderation API error (" (toString status) "): ") body
    · rw [hmsg]
      exact strContains_pair _ body

/-- C9 (witness): the message theorem at a concrete 404 response. -/
theorem http_error_status_message_witness :
    StrContains (errorMessage 404 "not found" "claude-sonnet-4-20250514")
      (toString 404) ∧
    StrContains (errorMessage 404 "not found" "claude-sonnet-4-20250514")
      "not found" ∧
    StrContains (errorMessage 404 "not found" "claude-sonnet-4-20250514")
      "claude-sonnet-4-20250514" :=
  ⟨(http_error_status_message 404 "not found" "claude-sonnet-4-20250514").1,
   (http_error_status_message 404 "not found" "claude-sonnet-4-20250514").2.1,
   (http_error_status_message 404 "not found" "claude-sonnet-4-20250514").2.2.1 rfl⟩

/-- C10: the approved panel's confidence figure is the confidence times 100
rounded to the nearest integer (half away from zero exactly as
`Math.round`, within 1/2 of the exact value), and 0.873 renders as 87%. -/
theorem confidence_pct_round :
    (∀ c : ℚ, |(confidencePct c : ℚ) - c * 100| ≤ 1/2) ∧
    confidencePct (873/1000) = 87 ∧
    confidenceDisplay (873/1000) = "87%" := by
  have h87 : confidencePct (873/1000) = 87 := by
    unfold confidencePct
    norm_num [round_eq]
  refine ⟨?_, h87, ?_⟩
  · intro c
    have h := abs_sub_round (α := ℚ) (c * 100)
    rw [abs_sub_comm] at h
    simpa [confidencePct] using h
  · rw [confidenceDisplay, h87]
    decide

end StoryUpload
